import Mathlib

/-!
A verification development for the MLMD query utilities of
model_card_toolkit/utils/tfx_util.py: the metadata-store data model, the
one-hop lineage walks, the model-keyed queries, the property reader and
the evaluation-metric annotator, embedded as executable Lean functions,
together with theorems settling the specified properties.
-/

namespace TfxUtil

/-- A Python scalar value as it occurs in MLMD property values and in
evaluation slice keys (int, float or str; the float payload is modelled
by Rat, since no arithmetic is performed on it). -/
inductive PyScalar where
  | int (i : Int)
  | float (q : Rat)
  | str (s : String)
deriving DecidableEq

/-- Rendering of a Python scalar inside an f-string: a str renders as
itself, an int in decimal; the float rendering is abstracted by the Rat
rendering. -/
def pyStr : PyScalar → String
  | .int i => toString i
  | .float q => toString q
  | .str s => s

/-- Modelled from the spec: the metadata store property value, "each value
one of int/float/string" (spec section 3). The proto oneof field names are
int_value, double_value and string_value, as witnessed by the accessors
the source uses in _property_value. -/
inductive Value where
  | int_value (i : Int)
  | double_value (d : Rat)
  | string_value (s : String)
deriving DecidableEq

/-- Modelled from the spec: proto WhichOneof on the value variant, giving
the name of the populated field. -/
def Value.whichOneof : Value → String
  | .int_value _ => "int_value"
  | .double_value _ => "double_value"
  | .string_value _ => "string_value"

/-- Modelled from the spec: the proto int_value accessor (the proto
default 0 when another variant is populated). -/
def Value.intValue : Value → Int
  | .int_value i => i
  | _ => 0

/-- Modelled from the spec: the proto double_value accessor (default 0
when another variant is populated). -/
def Value.doubleValue : Value → Rat
  | .double_value d => d
  | _ => 0

/-- Modelled from the spec: the proto string_value accessor (default ""
when another variant is populated). -/
def Value.stringValue : Value → String
  | .string_value s => s
  | _ => ""

/-- MLMD Artifact: an id, a type id, a storage location and the two
property maps. -/
structure Artifact where
  id : Int
  type_id : Int
  uri : String
  properties : List (String × Value)
  custom_properties : List (String × Value)
deriving DecidableEq

/-- MLMD Execution: same shape as Artifact but for a pipeline step run. -/
structure Execution where
  id : Int
  type_id : Int
  properties : List (String × Value)
  custom_properties : List (String × Value)
deriving DecidableEq

/-- MLMD Event.Type: the direction tag linking an artifact and an
execution. -/
inductive EventType where
  | UNKNOWN
  | DECLARED_OUTPUT
  | DECLARED_INPUT
  | INPUT
  | OUTPUT
  | INTERNAL_INPUT
  | INTERNAL_OUTPUT
deriving DecidableEq

/-- MLMD Event: one artifact id, one execution id and a direction tag. -/
structure Event where
  artifact_id : Int
  execution_id : Int
  type : EventType
deriving DecidableEq

/-- MLMD ArtifactType: a named artifact type definition. -/
structure ArtifactType where
  id : Int
  name : String
deriving DecidableEq

/-- MLMD ExecutionType: a named execution type definition. -/
structure ExecutionType where
  id : Int
  name : String
deriving DecidableEq

/-- The MLMD MetadataStore, as the read-only snapshot of types, nodes and
events that the module queries. -/
structure MetadataStore where
  artifact_types : List ArtifactType
  execution_types : List ExecutionType
  artifacts : List Artifact
  executions : List Execution
  events : List Event
deriving DecidableEq

/-- store.get_artifact_types(). -/
def MetadataStore.get_artifact_types (store : MetadataStore) : List ArtifactType :=
  store.artifact_types

/-- store.get_execution_types(). -/
def MetadataStore.get_execution_types (store : MetadataStore) : List ExecutionType :=
  store.execution_types

/-- store.get_artifacts_by_id(ids): the stored artifacts whose id is among
the given ids. -/
def MetadataStore.get_artifacts_by_id (store : MetadataStore) (ids : List Int) : List Artifact :=
  store.artifacts.filter (fun a => a.id ∈ ids)

/-- store.get_executions_by_id(ids). -/
def MetadataStore.get_executions_by_id (store : MetadataStore) (ids : List Int) : List Execution :=
  store.executions.filter (fun e => e.id ∈ ids)

/-- store.get_events_by_artifact_ids(ids): the events touching the given
artifact ids. -/
def MetadataStore.get_events_by_artifact_ids (store : MetadataStore) (ids : List Int) : List Event :=
  store.events.filter (fun e => e.artifact_id ∈ ids)

/-- store.get_events_by_execution_ids(ids). -/
def MetadataStore.get_events_by_execution_ids (store : MetadataStore) (ids : List Int) : List Event :=
  store.events.filter (fun e => e.execution_id ∈ ids)

/-- Python set(...) over ids: a deduplicated list whose membership agrees
with the underlying list. -/
def pySet : List Int → List Int
  | [] => []
  | x :: xs => if x ∈ pySet xs then pySet xs else x :: pySet xs

/-- The error conditions the module raises, one constructor per raise
site; the Python exception messages are abstracted to their structured
content. -/
inductive PyError where
  | missingArtifactTypes (missing : List String)
  | missingExecutionTypes (missing : List String)
  | modelIdNotFound (model_id : Int)
  | notAModel (artifact : Artifact)
  | sliceNotTuple (typeName : String)
  | tupleUnpack (arity : Nat)
  | unexpectedMetricShape
  | keyError (key : String)
deriving DecidableEq

deriving instance DecidableEq for Except

/-- Required artifact type name: Examples. -/
def _TFX_DATASET_TYPE : String := "Examples"

/-- Required artifact type name: ExampleStatistics. -/
def _TFX_STATS_TYPE : String := "ExampleStatistics"

/-- Required artifact type name: Model. -/
def _TFX_MODEL_TYPE : String := "Model"

/-- Required artifact type name: ModelEvaluation. -/
def _TFX_METRICS_TYPE : String := "ModelEvaluation"

/-- Required execution type name: the qualified trainer component name. -/
def _TFX_TRAINER_TYPE : String := "tfx.components.trainer.component.Trainer"

/-- The registry of required MLMD types about a TFX pipeline. -/
structure PipelineTypes where
  dataset_type : ArtifactType
  stats_type : ArtifactType
  model_type : ArtifactType
  metrics_type : ArtifactType
  trainer_type : ExecutionType
deriving DecidableEq

/-- The four required artifact type names, in the order of the set
literal in the source. -/
def expected_artifact_types : List String :=
  [_TFX_DATASET_TYPE, _TFX_STATS_TYPE, _TFX_MODEL_TYPE, _TFX_METRICS_TYPE]

/-- The required execution type names. -/
def expected_execution_types : List String := [_TFX_TRAINER_TYPE]

/-- Lookup in the name-indexed dict comprehension over artifact types
(a later entry with the same name overrides an earlier one). -/
def lookupArtifactType (types : List ArtifactType) (n : String) : ArtifactType :=
  ((types.filter (fun t => t.name == n)).getLast?).getD { id := 0, name := "" }

/-- Lookup in the name-indexed dict comprehension over execution types. -/
def lookupExecutionType (types : List ExecutionType) (n : String) : ExecutionType :=
  ((types.filter (fun t => t.name == n)).getLast?).getD { id := 0, name := "" }

/-- The required artifact type names absent from the store: the set
difference the source computes first. -/
def missing_artifact_types (store : MetadataStore) : List String :=
  expected_artifact_types.filter
    (fun n => ¬ (store.get_artifact_types.any (fun t => t.name == n)))

/-- The required execution type names absent from the store, checked only
after the artifact type check passes. -/
def missing_execution_types (store : MetadataStore) : List String :=
  expected_execution_types.filter
    (fun n => ¬ (store.get_execution_types.any (fun t => t.name == n)))

/-- _get_tfx_pipeline_types: retrieves the registered types of the store,
failing with the missing artifact type names first, then with the missing
execution type names, else returning the resolved registry. -/
def _get_tfx_pipeline_types (store : MetadataStore) : Except PyError PipelineTypes :=
  if missing_artifact_types store ≠ [] then
    .error (.missingArtifactTypes (missing_artifact_types store))
  else if missing_execution_types store ≠ [] then
    .error (.missingExecutionTypes (missing_execution_types store))
  else
    .ok
      { dataset_type := lookupArtifactType store.get_artifact_types _TFX_DATASET_TYPE
        stats_type := lookupArtifactType store.get_artifact_types _TFX_STATS_TYPE
        model_type := lookupArtifactType store.get_artifact_types _TFX_MODEL_TYPE
        metrics_type := lookupArtifactType store.get_artifact_types _TFX_METRICS_TYPE
        trainer_type := lookupExecutionType store.get_execution_types _TFX_TRAINER_TYPE }

/-- _validate_model_id: looks the artifact up by id, fails when no
artifact has the id, fails when its type id differs from the Model type
id, else returns the artifact. -/
def _validate_model_id (store : MetadataStore) (model_type : ArtifactType)
    (model_id : Int) : Except PyError Artifact :=
  match store.get_artifacts_by_id [model_id] with
  | [] => .error (.modelIdNotFound model_id)
  | model :: _ =>
    if model.type_id ≠ model_type.id then .error (.notAModel model)
    else .ok model

/-- _Direction: the traversal direction over MLMD lineage. -/
inductive _Direction where
  | ANCESTOR
  | SUCCESSOR
deriving DecidableEq

/-- The event types qualifying for the first hop (artifact to execution),
the traverse_events execution entry of the source. -/
def traverse_events_execution : _Direction → List EventType
  | .ANCESTOR => [.OUTPUT, .DECLARED_OUTPUT]
  | .SUCCESSOR => [.INPUT, .DECLARED_INPUT]

/-- The event types qualifying for the second hop (execution to
artifact), the traverse_events artifact entry of the source. -/
def traverse_events_artifact : _Direction → List EventType
  | .ANCESTOR => [.INPUT, .DECLARED_INPUT]
  | .SUCCESSOR => [.OUTPUT, .DECLARED_OUTPUT]

/-- The executions_ids set of _get_one_hop_artifacts: execution ids of
qualifying events touching the starting artifact ids. -/
def one_hop_executions_ids (store : MetadataStore) (artifact_ids : List Int)
    (direction : _Direction) : List Int :=
  pySet (((store.get_events_by_artifact_ids artifact_ids).filter
    (fun e => e.type ∈ traverse_events_execution direction)).map Event.execution_id)

/-- The artifacts_ids set of _get_one_hop_artifacts: artifact ids of
qualifying events touching the first-hop execution ids. -/
def one_hop_artifacts_ids (store : MetadataStore) (artifact_ids : List Int)
    (direction : _Direction) : List Int :=
  pySet (((store.get_events_by_execution_ids
      (one_hop_executions_ids store artifact_ids direction)).filter
    (fun e => e.type ∈ traverse_events_artifact direction)).map Event.artifact_id)

/-- _get_one_hop_artifacts: the artifacts within the one-hop neighborhood
of the given ids, optionally filtered by type. -/
def _get_one_hop_artifacts (store : MetadataStore) (artifact_ids : List Int)
    (direction : _Direction) (filter_type : Option ArtifactType) : List Artifact :=
  (store.get_artifacts_by_id (one_hop_artifacts_ids store artifact_ids direction)).filter
    (fun a =>
      match filter_type with
      | none => true
      | some t => a.type_id == t.id)

/-- _get_one_hop_executions: the executions within the one-hop
neighborhood of the given artifact ids, optionally filtered by type. -/
def _get_one_hop_executions (store : MetadataStore) (artifact_ids : List Int)
    (direction : _Direction) (filter_type : Option ExecutionType) : List Execution :=
  (store.get_executions_by_id (one_hop_executions_ids store artifact_ids direction)).filter
    (fun e =>
      match filter_type with
      | none => true
      | some t => e.type_id == t.id)

/-- The `if not pipeline_types` resolution step shared by the three
model-keyed entry points. -/
def resolve_pipeline_types (store : MetadataStore) :
    Option PipelineTypes → Except PyError PipelineTypes
  | some pt => .ok pt
  | none => _get_tfx_pipeline_types store

/-- get_metrics_artifacts_for_model: the metrics artifacts one SUCCESSOR
hop away from the validated model. -/
def get_metrics_artifacts_for_model (store : MetadataStore) (model_id : Int)
    (pipeline_types : Option PipelineTypes) : Except PyError (List Artifact) :=
  match resolve_pipeline_types store pipeline_types with
  | .error e => .error e
  | .ok pt =>
    match _validate_model_id store pt.model_type model_id with
    | .error e => .error e
    | .ok _ =>
      .ok (_get_one_hop_artifacts store [model_id] _Direction.SUCCESSOR (some pt.metrics_type))

/-- Whether the pattern occurs as a contiguous run of the characters:
the semantics of str.find(pat) != -1. -/
def containsSeq (pat : List Char) : List Char → Bool
  | [] => pat.isEmpty
  | c :: cs => pat.isPrefixOf (c :: cs) || containsSeq pat cs

/-- example.uri.find of the marker is not -1: the uri contains the
substring "/Transform/". -/
def uriContainsTransform (uri : String) : Bool :=
  containsSeq ("/Transform/".toList) uri.toList

/-- get_stats_artifacts_for_model: partitions the trainer input datasets
by the transform marker, maps transformed examples back one extra
ANCESTOR hop, and takes a SUCCESSOR hop to the statistics artifacts. -/
def get_stats_artifacts_for_model (store : MetadataStore) (model_id : Int)
    (pipeline_types : Option PipelineTypes) : Except PyError (List Artifact) :=
  match resolve_pipeline_types store pipeline_types with
  | .error e => .error e
  | .ok pt =>
    match _validate_model_id store pt.model_type model_id with
    | .error e => .error e
    | .ok _ =>
      let trainer_examples :=
        _get_one_hop_artifacts store [model_id] _Direction.ANCESTOR (some pt.dataset_type)
      let dataset_ids0 :=
        pySet ((trainer_examples.filter (fun e => ¬ uriContainsTransform e.uri)).map Artifact.id)
      let transformed_example_ids :=
        pySet ((trainer_examples.filter (fun e => uriContainsTransform e.uri)).map Artifact.id)
      let dataset_ids :=
        pySet (dataset_ids0 ++
          (_get_one_hop_artifacts store transformed_example_ids _Direction.ANCESTOR
            (some pt.dataset_type)).map Artifact.id)
      .ok (_get_one_hop_artifacts store dataset_ids _Direction.SUCCESSOR (some pt.stats_type))

/-- The two property maps a node exposes (MLMD Artifact, Execution and
Context all carry these). -/
structure NodeProperties where
  properties : List (String × Value)
  custom_properties : List (String × Value)
deriving DecidableEq

/-- The property-map view of an artifact. -/
def Artifact.node_properties (a : Artifact) : NodeProperties :=
  ⟨a.properties, a.custom_properties⟩

/-- The property-map view of an execution. -/
def Execution.node_properties (e : Execution) : NodeProperties :=
  ⟨e.properties, e.custom_properties⟩

/-- _property_value: selects the property map, returns None when the name
is absent, else dispatches on WhichOneof exactly as the source does
(comparing against "int_value", then "float_value", else falling through
to the string accessor). -/
def _property_value (node : NodeProperties) (name : String)
    (is_custom_property : Bool) : Option PyScalar :=
  let properties := if is_custom_property then node.custom_properties else node.properties
  match properties.lookup name with
  | none => none
  | some v =>
    if v.whichOneof == "int_value" then some (.int v.intValue)
    else if v.whichOneof == "float_value" then some (.float v.doubleValue)
    else some (.str v.stringValue)

/-- Modelled from the spec: a reference entry of the model details
(section 3, model card fragments). -/
structure Reference where
  reference : Option PyScalar
deriving DecidableEq

/-- Modelled from the spec: the version fragment holding the version
label. -/
structure Version where
  name : Option PyScalar
deriving DecidableEq

/-- Modelled from the spec: the model details fragment (name, version
label, reference list), defaulting to unset values. -/
structure ModelDetails where
  name : Option PyScalar
  version : Version
  references : List Reference
deriving DecidableEq

/-- Modelled from the spec: a performance-metric record (type name, value
as text, slice label). -/
structure PerformanceMetric where
  type : String
  value : String
  slice : String
deriving DecidableEq

/-- Modelled from the spec: the quantitative-analysis fragment holding
the flat performance-metric list. -/
structure QuantitativeAnalysis where
  performance_metrics : List PerformanceMetric
deriving DecidableEq

/-- Modelled from the spec: the model card object, restricted to the
fragments this module writes. -/
structure ModelCard where
  model_details : ModelDetails
  quantitative_analysis : QuantitativeAnalysis
deriving DecidableEq

/-- ModelCard(): the freshly constructed card with default fields. -/
def ModelCard.init : ModelCard :=
  { model_details := { name := none, version := { name := none }, references := [] }
    quantitative_analysis := { performance_metrics := [] } }

/-- generate_model_card_for_model: validates the model, walks to the
ancestor trainer executions, and fills the model details from the last
and first trainers when any exist. -/
def generate_model_card_for_model (store : MetadataStore) (model_id : Int)
    (pipeline_types : Option PipelineTypes) : Except PyError ModelCard :=
  match resolve_pipeline_types store pipeline_types with
  | .error e => .error e
  | .ok pt =>
    match _validate_model_id store pt.model_type model_id with
    | .error e => .error e
    | .ok _ =>
      let model_card := ModelCard.init
      let trainers :=
        _get_one_hop_executions store [model_id] _Direction.ANCESTOR (some pt.trainer_type)
      match trainers with
      | [] => .ok model_card
      | t0 :: ts =>
        let tlast := (t0 :: ts).getLast (by simp)
        .ok { model_card with
          model_details :=
            { name := _property_value tlast.node_properties "module_file" false
              version := { name := _property_value t0.node_properties "checksum_md5" false }
              references :=
                [{ reference := _property_value t0.node_properties "pipeline_name" false }] } }

/-- An element of a Python slice-key tuple: a (dimension-name,
dimension-value) pair, or a tuple of another arity that fails the
`for a, b in` unpacking. -/
inductive SliceElem where
  | pair (a b : PyScalar)
  | nonPair (arity : Nat)
deriving DecidableEq

/-- A slice representation as the annotator receives it: a tuple of
elements, or a value of another Python type (carrying its type name). -/
inductive SliceRepr where
  | tuple (dims : List SliceElem)
  | other (typeName : String)
deriving DecidableEq

/-- A metric value as rendered by tfma: a JSON-style dict optionally
carrying a doubleValue number and a boundedValue sub-dict. -/
structure MetricValue where
  doubleValue : Option Rat
  boundedValue : Option (List (String × Rat))
deriving DecidableEq

/-- The data returned by the external tfma
EvalResult.get_metrics_for_all_slices, modelled as an association list
(Python dicts preserve insertion order) from slice representations to
metric-name/metric-value maps. -/
abbrev SlicingMetrics := List (SliceRepr × List (String × MetricValue))

/-- One step of the f-string inside the join: renders a pair as
"name_value", and fails as the interpreter does when unpacking a
non-pair. -/
def dim_render : SliceElem → Except PyError String
  | .pair a b => .ok (pyStr a ++ "_" ++ pyStr b)
  | .nonPair n => .error (.tupleUnpack n)

/-- The generator feeding the join, evaluated left to right, stopping at
the first unpacking failure. -/
def render_dims : List SliceElem → Except PyError (List String)
  | [] => .ok []
  | d :: ds =>
    match dim_render d with
    | .error e => .error e
    | .ok s =>
      match render_dims ds with
      | .error e => .error e
      | .ok ss => .ok (s :: ss)

/-- The slice-name parsing step: rejects non-tuples with the explicit
raise of the source, else joins the rendered dimensions with the
separator. -/
def slice_name_render : SliceRepr → Except PyError String
  | .other t => .error (.sliceNotTuple t)
  | .tuple dims =>
    match render_dims dims with
    | .error e => .error e
    | .ok parts => .ok (String.intercalate "_X_" parts)

/-- The metric value parsing step: the doubleValue key first, else the
value sub-field of the boundedValue key (a missing sub-field is a
KeyError), else the explicit unexpected-shape raise. -/
def parse_metric_value (mv : MetricValue) : Except PyError Rat :=
  match mv.doubleValue with
  | some v => .ok v
  | none =>
    match mv.boundedValue with
    | some bv =>
      match bv.lookup "value" with
      | some v => .ok v
      | none => .error (.keyError "value")
    | none => .error .unexpectedMetricShape

/-- Appending one performance metric to the card. -/
def ModelCard.append_metric (card : ModelCard) (m : PerformanceMetric) : ModelCard :=
  { card with
    quantitative_analysis :=
      { performance_metrics := card.quantitative_analysis.performance_metrics ++ [m] } }

/-- The inner loop of annotate_eval_result_metrics over one slice: each
metric is parsed and appended in turn; a failure stops the loop keeping
the records appended so far (the card is mutated in place). -/
def annotate_metrics_for_slice (card : ModelCard) (slice_name : String) :
    List (String × MetricValue) → ModelCard × Option PyError
  | [] => (card, none)
  | (metric_name, metric_value) :: rest =>
    match parse_metric_value metric_value with
    | .error e => (card, some e)
    | .ok v =>
      annotate_metrics_for_slice
        (card.append_metric { type := metric_name, value := toString v, slice := slice_name })
        slice_name rest

/-- annotate_eval_result_metrics: for each slice in encounter order,
parse the slice name then append one record per metric; an exception
stops the traversal, keeping the records already appended to the mutable
card. -/
def annotate_eval_result_metrics (card : ModelCard) :
    SlicingMetrics → ModelCard × Option PyError
  | [] => (card, none)
  | (slice_repr, metrics_for_slice) :: rest =>
    match slice_name_render slice_repr with
    | .error e => (card, some e)
    | .ok slice_name =>
      match annotate_metrics_for_slice card slice_name metrics_for_slice with
      | (card2, some e) => (card2, some e)
      | (card2, none) => annotate_eval_result_metrics card2 rest

/-- Whether a slice element is a proper (name, value) pair. -/
def SliceElem.isPair : SliceElem → Bool
  | .pair _ _ => true
  | .nonPair _ => false

/-- Whether a slice key is a tuple of (name, value) pairs. -/
def sliceKeyOk : SliceRepr → Bool
  | .tuple dims => dims.all SliceElem.isPair
  | .other _ => false

/-- The claim-level label of one dimension: name and value joined by an
underscore. -/
def dimLabel : SliceElem → String
  | .pair a b => pyStr a ++ "_" ++ pyStr b
  | .nonPair _ => ""

/-- The claim-level slice label: every dimension rendered and the
renderings joined with the separator; the empty tuple gives the empty
string. -/
def sliceLabel : SliceRepr → String
  | .tuple dims => String.intercalate "_X_" (dims.map dimLabel)
  | .other _ => ""

/-- A metric value accepted by the annotator: the direct-scalar key is
present, or the bounded-value key is present with a value sub-field. -/
def wellShapedValue (mv : MetricValue) : Bool :=
  mv.doubleValue.isSome ||
    (match mv.boundedValue with
     | some bv => (bv.lookup "value").isSome
     | none => false)

/-- The claim-level scalar of a metric value: the direct scalar first,
else the value sub-field of the bounded value. -/
def specScalar (mv : MetricValue) : Rat :=
  match mv.doubleValue with
  | some v => v
  | none => ((mv.boundedValue.getD []).lookup "value").getD 0

/-- The performance-metric records one slice contributes, in metric
encounter order. -/
def sliceRecords (s : SliceRepr × List (String × MetricValue)) : List PerformanceMetric :=
  s.2.map (fun mp =>
    { type := mp.1, value := toString (specScalar mp.2), slice := sliceLabel s.1 })

/-- Appending a list of performance metrics to the card. -/
def card_append (card : ModelCard) (l : List PerformanceMetric) : ModelCard :=
  { card with
    quantitative_analysis :=
      { performance_metrics := card.quantitative_analysis.performance_metrics ++ l } }

/-- A fully well-formed slice entry: a tuple key of pairs and all metric
values well-shaped. -/
def sliceOk (s : SliceRepr × List (String × MetricValue)) : Bool :=
  sliceKeyOk s.1 && s.2.all (fun mp => wellShapedValue mp.2)

/-- Whether a query result is one of the two missing-required-type
failures of the type resolver. -/
def isMissingTypeError {α : Type} : Except PyError α → Bool
  | .error (.missingArtifactTypes _) => true
  | .error (.missingExecutionTypes _) => true
  | _ => false

/-- Whether an annotator outcome is the explicit invalid-slice raise of
the source (the one with the Expected-EvalResult-slices message). -/
def isSliceNotTupleError : Option PyError → Bool
  | some (.sliceNotTuple _) => true
  | _ => false

/-- Whether an annotator outcome is the explicit unexpected-shape raise
of the source (the one with the Expected-doubleValue-or-boundedValue
message). -/
def isUnexpectedShapeError : Option PyError → Bool
  | some .unexpectedMetricShape => true
  | _ => false

/-- The empty metadata store: no registered types, nodes or events. -/
def emptyStore : MetadataStore := ⟨[], [], [], [], []⟩

/-- A concrete Examples artifact type for the witness store. -/
def dsTypeW : ArtifactType := ⟨1, "Examples"⟩

/-- A concrete ExampleStatistics artifact type for the witness store. -/
def statsTypeW : ArtifactType := ⟨2, "ExampleStatistics"⟩

/-- A concrete Model artifact type for the witness store. -/
def modelTypeW : ArtifactType := ⟨3, "Model"⟩

/-- A concrete ModelEvaluation artifact type for the witness store. -/
def metricsTypeW : ArtifactType := ⟨4, "ModelEvaluation"⟩

/-- A concrete Trainer execution type for the witness store. -/
def trainerTypeW : ExecutionType := ⟨10, "tfx.components.trainer.component.Trainer"⟩

/-- The resolved registry of the witness store. -/
def ptW : PipelineTypes := ⟨dsTypeW, statsTypeW, modelTypeW, metricsTypeW, trainerTypeW⟩

/-- A raw dataset artifact of the witness store. -/
def rawDataset : Artifact := ⟨101, 1, "/p/CsvExampleGen/examples/1", [], []⟩

/-- A transformed-examples artifact (its uri carries the marker). -/
def transformedExamples : Artifact :=
  ⟨102, 1, "/p/Transform/transformed_examples/4", [], []⟩

/-- The model artifact trained on the transformed examples. -/
def modelArtifact : Artifact := ⟨103, 3, "/p/Trainer/model/7", [], []⟩

/-- The statistics artifact computed on the raw dataset. -/
def statsArtifact : Artifact := ⟨104, 2, "/p/StatisticsGen/statistics/2", [], []⟩

/-- The evaluation artifact produced from the model. -/
def metricsArtifact : Artifact := ⟨105, 4, "/p/Evaluator/evaluation/9", [], []⟩

/-- A second model artifact with no lineage events. -/
def orphanModel : Artifact := ⟨106, 3, "/p/Trainer/model/8", [], []⟩

/-- The trainer execution holding the three model-card properties. -/
def trainerExec : Execution :=
  ⟨201, 10,
    [("module_file", .string_value "trainer_module.py"),
     ("checksum_md5", .string_value "abc123"),
     ("pipeline_name", .string_value "my_pipeline")], []⟩

/-- The transform execution of the witness store. -/
def transformExec : Execution := ⟨202, 11, [], []⟩

/-- The statistics-gen execution of the witness store. -/
def statsgenExec : Execution := ⟨203, 12, [], []⟩

/-- The evaluator execution of the witness store. -/
def evalExec : Execution := ⟨204, 13, [], []⟩

/-- The concrete witness store: a raw dataset transformed into training
examples, a trainer producing the model, statistics on the raw dataset
and an evaluation of the model. -/
def storeW : MetadataStore :=
  { artifact_types := [dsTypeW, statsTypeW, modelTypeW, metricsTypeW]
    execution_types := [trainerTypeW]
    artifacts := [rawDataset, transformedExamples, modelArtifact, statsArtifact,
      metricsArtifact, orphanModel]
    executions := [trainerExec, transformExec, statsgenExec, evalExec]
    events :=
      [⟨101, 202, .INPUT⟩, ⟨102, 202, .OUTPUT⟩,
       ⟨102, 201, .INPUT⟩, ⟨103, 201, .OUTPUT⟩,
       ⟨101, 203, .INPUT⟩, ⟨104, 203, .OUTPUT⟩,
       ⟨103, 204, .INPUT⟩, ⟨105, 204, .OUTPUT⟩] }

/-- A concrete well-shaped slicing-metrics payload: three slices of one
or two metrics each, one slice with two dimensions and one with the
empty tuple. -/
def evalW : SlicingMetrics :=
  [(.tuple [.pair (.str "weekday") (.int 0)],
    [("average_loss", ⟨some 1, none⟩),
     ("prediction/mean", ⟨none, some [("value", 2), ("lower_bound", 1)]⟩)]),
   (.tuple [.pair (.str "gender") (.str "male"), .pair (.str "age") (.int 10)],
    [("average_loss", ⟨some 3, none⟩)]),
   (.tuple [], [("average_loss", ⟨some 4, none⟩)])]

theorem mem_pySet (l : List Int) (x : Int) : x ∈ pySet l ↔ x ∈ l := by
  induction l generalizing x with
  | nil => simp [pySet]
  | cons a as ih =>
    have hps : pySet (a :: as) = if a ∈ pySet as then pySet as else a :: pySet as := rfl
    rw [hps]
    by_cases h : a ∈ pySet as
    · rw [if_pos h, ih, List.mem_cons]
      constructor
      · exact Or.inr
      · rintro (rfl | hx)
        · exact (ih _).mp h
        · exact hx
    · rw [if_neg h]
      simp only [List.mem_cons, ih]

theorem nodup_pySet (l : List Int) : (pySet l).Nodup := by
  induction l with
  | nil => simp [pySet]
  | cons a as ih =>
    by_cases h : a ∈ pySet as
    · simpa only [pySet, if_pos h] using ih
    · simp only [pySet, if_neg h]
      exact List.nodup_cons.mpr ⟨h, ih⟩

theorem mem_one_hop_executions_ids (store : MetadataStore) (ids : List Int)
    (d : _Direction) (x : Int) :
    x ∈ one_hop_executions_ids store ids d ↔
      ∃ e, e ∈ store.events ∧ e.type ∈ traverse_events_execution d ∧
        e.artifact_id ∈ ids ∧ e.execution_id = x := by
  simp only [one_hop_executions_ids, mem_pySet, List.mem_map, List.mem_filter,
    MetadataStore.get_events_by_artifact_ids, decide_eq_true_eq]
  constructor
  · rintro ⟨e, ⟨⟨he, hart⟩, htype⟩, hx⟩
    exact ⟨e, he, htype, hart, hx⟩
  · rintro ⟨e, he, htype, hart, hx⟩
    exact ⟨e, ⟨⟨he, hart⟩, htype⟩, hx⟩

theorem mem_one_hop_artifacts_ids (store : MetadataStore) (ids : List Int)
    (d : _Direction) (x : Int) :
    x ∈ one_hop_artifacts_ids store ids d ↔
      ∃ e2, e2 ∈ store.events ∧ e2.type ∈ traverse_events_artifact d ∧
        e2.artifact_id = x ∧
        ∃ e1, e1 ∈ store.events ∧ e1.type ∈ traverse_events_execution d ∧
          e1.artifact_id ∈ ids ∧ e1.execution_id = e2.execution_id := by
  simp only [one_hop_artifacts_ids, mem_pySet, List.mem_map, List.mem_filter,
    MetadataStore.get_events_by_execution_ids, decide_eq_true_eq,
    mem_one_hop_executions_ids]
  constructor
  · rintro ⟨e2, ⟨⟨he2, e1, he1, ht1, ha1, hx1⟩, ht2⟩, hx⟩
    exact ⟨e2, he2, ht2, hx, e1, he1, ht1, ha1, hx1⟩
  · rintro ⟨e2, he2, ht2, hx, e1, he1, ht1, ha1, hx1⟩
    exact ⟨e2, ⟨⟨he2, e1, he1, ht1, ha1, hx1⟩, ht2⟩, hx⟩

theorem mem_one_hop_artifacts (store : MetadataStore) (ids : List Int)
    (d : _Direction) (ft : Option ArtifactType) (a : Artifact) :
    a ∈ _get_one_hop_artifacts store ids d ft ↔
      a ∈ store.artifacts ∧ a.id ∈ one_hop_artifacts_ids store ids d ∧
        (∀ t, ft = some t → a.type_id = t.id) := by
  simp only [_get_one_hop_artifacts, List.mem_filter,
    MetadataStore.get_artifacts_by_id, decide_eq_true_eq]
  cases ft with
  | none => simp
  | some t =>
    simp only [beq_iff_eq, and_assoc]
    constructor
    · rintro ⟨ha, hid, htype⟩
      exact ⟨ha, hid, fun u hu => by cases hu; exact htype⟩
    · rintro ⟨ha, hid, htype⟩
      exact ⟨ha, hid, htype t rfl⟩

theorem mem_one_hop_executions (store : MetadataStore) (ids : List Int)
    (d : _Direction) (ft : Option ExecutionType) (ex : Execution) :
    ex ∈ _get_one_hop_executions store ids d ft ↔
      ex ∈ store.executions ∧ ex.id ∈ one_hop_executions_ids store ids d ∧
        (∀ t, ft = some t → ex.type_id = t.id) := by
  simp only [_get_one_hop_executions, List.mem_filter,
    MetadataStore.get_executions_by_id, decide_eq_true_eq]
  cases ft with
  | none => simp
  | some t =>
    simp only [beq_iff_eq, and_assoc]
    constructor
    · rintro ⟨ha, hid, htype⟩
      exact ⟨ha, hid, fun u hu => by cases hu; exact htype⟩
    · rintro ⟨ha, hid, htype⟩
      exact ⟨ha, hid, htype t rfl⟩

/-- C1: the artifact one-hop walk with direction ANCESTOR keeps execution
ids exactly from OUTPUT/DECLARED_OUTPUT events touching the starting
artifacts and artifact ids exactly from INPUT/DECLARED_INPUT events
touching those executions, SUCCESSOR swaps the two event-type pairs, the
ids kept at each hop are deduplicated sets, and under a type filter only
artifacts with the filter type id appear. -/
theorem c1_one_hop_artifact_walk (store : MetadataStore) (ids : List Int)
    (ft : Option ArtifactType) :
    (∀ a : Artifact,
      a ∈ _get_one_hop_artifacts store ids _Direction.ANCESTOR ft ↔
        a ∈ store.artifacts ∧
        (∀ t, ft = some t → a.type_id = t.id) ∧
        ∃ e2, e2 ∈ store.events ∧
          (e2.type = EventType.INPUT ∨ e2.type = EventType.DECLARED_INPUT) ∧
          e2.artifact_id = a.id ∧
          ∃ e1, e1 ∈ store.events ∧
            (e1.type = EventType.OUTPUT ∨ e1.type = EventType.DECLARED_OUTPUT) ∧
            e1.artifact_id ∈ ids ∧ e1.execution_id = e2.execution_id) ∧
    (∀ a : Artifact,
      a ∈ _get_one_hop_artifacts store ids _Direction.SUCCESSOR ft ↔
        a ∈ store.artifacts ∧
        (∀ t, ft = some t → a.type_id = t.id) ∧
        ∃ e2, e2 ∈ store.events ∧
          (e2.type = EventType.OUTPUT ∨ e2.type = EventType.DECLARED_OUTPUT) ∧
          e2.artifact_id = a.id ∧
          ∃ e1, e1 ∈ store.events ∧
            (e1.type = EventType.INPUT ∨ e1.type = EventType.DECLARED_INPUT) ∧
            e1.artifact_id ∈ ids ∧ e1.execution_id = e2.execution_id) ∧
    (∀ d : _Direction, (one_hop_executions_ids store ids d).Nodup ∧
      (one_hop_artifacts_ids store ids d).Nodup) := by
  refine ⟨fun a => ?_, fun a => ?_, fun d => ⟨nodup_pySet _, nodup_pySet _⟩⟩
  · rw [mem_one_hop_artifacts, mem_one_hop_artifacts_ids]
    simp only [traverse_events_artifact, traverse_events_execution, List.mem_cons,
      List.not_mem_nil, or_false]
    constructor
    · rintro ⟨ha, ⟨e2, he2, ht2, hid, e1, he1, ht1, ha1, heq⟩, htype⟩
      exact ⟨ha, htype, e2, he2, ht2, hid, e1, he1, ht1, ha1, heq⟩
    · rintro ⟨ha, htype, e2, he2, ht2, hid, e1, he1, ht1, ha1, heq⟩
      exact ⟨ha, ⟨e2, he2, ht2, hid, e1, he1, ht1, ha1, heq⟩, htype⟩
  · rw [mem_one_hop_artifacts, mem_one_hop_artifacts_ids]
    simp only [traverse_events_artifact, traverse_events_execution, List.mem_cons,
      List.not_mem_nil, or_false]
    constructor
    · rintro ⟨ha, ⟨e2, he2, ht2, hid, e1, he1, ht1, ha1, heq⟩, htype⟩
      exact ⟨ha, htype, e2, he2, ht2, hid, e1, he1, ht1, ha1, heq⟩
    · rintro ⟨ha, htype, e2, he2, ht2, hid, e1, he1, ht1, ha1, heq⟩
      exact ⟨ha, ⟨e2, he2, ht2, hid, e1, he1, ht1, ha1, heq⟩, htype⟩

theorem resolve_none (store : MetadataStore) :
    resolve_pipeline_types store none = _get_tfx_pipeline_types store := rfl

theorem get_tfx_pipeline_types_missing_artifact (store : MetadataStore)
    (h : missing_artifact_types store ≠ []) :
    _get_tfx_pipeline_types store =
      .error (.missingArtifactTypes (missing_artifact_types store)) := by
  unfold _get_tfx_pipeline_types
  rw [if_pos h]

theorem get_tfx_pipeline_types_missing_execution (store : MetadataStore)
    (ha : missing_artifact_types store = [])
    (he : missing_execution_types store ≠ []) :
    _get_tfx_pipeline_types store =
      .error (.missingExecutionTypes (missing_execution_types store)) := by
  unfold _get_tfx_pipeline_types
  rw [if_neg (by simp [ha]), if_pos he]

theorem queries_resolution_error (store : MetadataStore) (model_id : Int) (e : PyError)
    (h : _get_tfx_pipeline_types store = .error e) :
    get_metrics_artifacts_for_model store model_id none = .error e ∧
    get_stats_artifacts_for_model store model_id none = .error e ∧
    generate_model_card_for_model store model_id none = .error e := by
  refine ⟨?_, ?_, ?_⟩ <;>
    simp only [get_metrics_artifacts_for_model, get_stats_artifacts_for_model,
      generate_model_card_for_model, resolve_none, h]

theorem mem_missing_artifact_types (store : MetadataStore) (n : String) :
    n ∈ missing_artifact_types store ↔
      n ∈ expected_artifact_types ∧ ∀ t, t ∈ store.artifact_types → t.name ≠ n := by
  simp only [missing_artifact_types, MetadataStore.get_artifact_types, List.mem_filter,
    decide_eq_true_eq, List.any_eq_true, beq_iff_eq, not_exists, not_and]

theorem missing_execution_types_absent (store : MetadataStore) :
    missing_execution_types store = [_TFX_TRAINER_TYPE] ↔
      ∀ t, t ∈ store.execution_types → t.name ≠ _TFX_TRAINER_TYPE := by
  simp only [missing_execution_types, expected_execution_types,
    MetadataStore.get_execution_types, List.filter_cons, List.filter_nil,
    List.any_eq_true, beq_iff_eq, decide_eq_true_eq]
  by_cases h : ∃ t ∈ store.execution_types, t.name = _TFX_TRAINER_TYPE
  · rw [if_neg (not_not_intro h)]
    obtain ⟨t, ht, hn⟩ := h
    constructor
    · intro hcontr
      exact absurd hcontr (by simp)
    · intro hall
      exact absurd hn (hall t ht)
  · rw [if_pos h]
    push_neg at h
    simp only [eq_self_iff_true, true_iff]
    exact h

/-- C3 as stated fails: on a store missing all four artifact type names
and the trainer execution type name, the raised error names only the
artifact type names, not the absent trainer type. -/
theorem c3_counterexample :
    get_metrics_artifacts_for_model emptyStore 1 none =
      .error (.missingArtifactTypes
        ["Examples", "ExampleStatistics", "Model", "ModelEvaluation"]) ∧
    emptyStore.execution_types = [] ∧
    _TFX_TRAINER_TYPE ∉ ["Examples", "ExampleStatistics", "Model", "ModelEvaluation"] :=
  ⟨rfl, rfl, by decide⟩

/-- C3 (amended): called without a registry, every query entry point
fails before any model validation or traversal with a missing-type error;
the missing artifact type names are checked first and named exactly, and
only when all four artifact types are present is the trainer execution
type checked and its absence named. -/
theorem c3_missing_required_types (store : MetadataStore) (model_id : Int) :
    (missing_artifact_types store ≠ [] →
      get_metrics_artifacts_for_model store model_id none =
          .error (.missingArtifactTypes (missing_artifact_types store)) ∧
      get_stats_artifacts_for_model store model_id none =
          .error (.missingArtifactTypes (missing_artifact_types store)) ∧
      generate_model_card_for_model store model_id none =
          .error (.missingArtifactTypes (missing_artifact_types store))) ∧
    (missing_artifact_types store = [] →
      (∀ t, t ∈ store.execution_types → t.name ≠ _TFX_TRAINER_TYPE) →
      get_metrics_artifacts_for_model store model_id none =
          .error (.missingExecutionTypes [_TFX_TRAINER_TYPE]) ∧
      get_stats_artifacts_for_model store model_id none =
          .error (.missingExecutionTypes [_TFX_TRAINER_TYPE]) ∧
      generate_model_card_for_model store model_id none =
          .error (.missingExecutionTypes [_TFX_TRAINER_TYPE])) ∧
    (∀ n, n ∈ missing_artifact_types store ↔
      n ∈ expected_artifact_types ∧ ∀ t, t ∈ store.artifact_types → t.name ≠ n) := by
  refine ⟨?_, ?_, mem_missing_artifact_types store⟩
  · intro h
    exact queries_resolution_error store model_id _
      (get_tfx_pipeline_types_missing_artifact store h)
  · intro ha he
    have hmiss : missing_execution_types store = [_TFX_TRAINER_TYPE] :=
      (missing_execution_types_absent store).mpr he
    have := queries_resolution_error store model_id _
      (get_tfx_pipeline_types_missing_execution store ha (by simp [hmiss]))
    rwa [hmiss] at this

theorem validate_error_shape (store : MetadataStore) (mt : ArtifactType) (mid : Int)
    (e : PyError) (h : _validate_model_id store mt mid = .error e) :
    e = .modelIdNotFound mid ∨ ∃ a, e = .notAModel a := by
  unfold _validate_model_id at h
  cases hl : store.get_artifacts_by_id [mid] with
  | nil =>
    rw [hl] at h
    dsimp only at h
    exact Or.inl (by injection h with h2; exact h2.symm)
  | cons m rest =>
    rw [hl] at h
    dsimp only at h
    by_cases hm : m.type_id ≠ mt.id
    · rw [if_pos hm] at h
      refine Or.inr ⟨m, ?_⟩
      injection h with h2
      exact h2.symm
    · rw [if_neg hm] at h
      cases h

/-- C5: model validation fails with the not-found error naming the id
when no artifact has the id, fails with the not-a-Model error when the
found artifact has a different type id, otherwise returns the found
artifact; and each of the three model-keyed queries propagates a
validation failure unchanged. -/
theorem c5_validate_model_id (store : MetadataStore) (pt : PipelineTypes)
    (model_id : Int) :
    ((∀ a, a ∈ store.artifacts → a.id ≠ model_id) →
      _validate_model_id store pt.model_type model_id =
        .error (.modelIdNotFound model_id)) ∧
    (∀ m rest, store.get_artifacts_by_id [model_id] = m :: rest →
      (m.type_id ≠ pt.model_type.id →
        _validate_model_id store pt.model_type model_id = .error (.notAModel m)) ∧
      (m.type_id = pt.model_type.id →
        _validate_model_id store pt.model_type model_id = .ok m)) ∧
    (∀ e, _validate_model_id store pt.model_type model_id = .error e →
      get_metrics_artifacts_for_model store model_id (some pt) = .error e ∧
      get_stats_artifacts_for_model store model_id (some pt) = .error e ∧
      generate_model_card_for_model store model_id (some pt) = .error e) := by
  refine ⟨?_, ?_, ?_⟩
  · intro hnone
    have hempty : store.get_artifacts_by_id [model_id] = [] := by
      simp only [MetadataStore.get_artifacts_by_id, List.filter_eq_nil_iff,
        decide_eq_true_eq, List.mem_singleton]
      exact fun a ha => hnone a ha
    unfold _validate_model_id
    rw [hempty]
  · intro m rest hcons
    constructor
    · intro hne
      unfold _validate_model_id
      rw [hcons]
      dsimp only
      rw [if_pos hne]
    · intro heq
      unfold _validate_model_id
      rw [hcons]
      dsimp only
      rw [if_neg (by simp [heq])]
  · intro e he
    refine ⟨?_, ?_, ?_⟩ <;>
      simp only [get_metrics_artifacts_for_model, get_stats_artifacts_for_model,
        generate_model_card_for_model, resolve_pipeline_types, he]

/-- C9: with a pre-resolved registry supplied, no store type check runs:
none of the three queries can return a missing-required-type error, and
each behaves identically on a store stripped of every registered type. -/
theorem c9_registry_skips_type_check (store : MetadataStore) (pt : PipelineTypes)
    (model_id : Int) :
    isMissingTypeError (get_metrics_artifacts_for_model store model_id (some pt)) = false ∧
    isMissingTypeError (get_stats_artifacts_for_model store model_id (some pt)) = false ∧
    isMissingTypeError (generate_model_card_for_model store model_id (some pt)) = false ∧
    get_metrics_artifacts_for_model store model_id (some pt) =
      get_metrics_artifacts_for_model
        { store with artifact_types := [], execution_types := [] } model_id (some pt) ∧
    get_stats_artifacts_for_model store model_id (some pt) =
      get_stats_artifacts_for_model
        { store with artifact_types := [], execution_types := [] } model_id (some pt) ∧
    generate_model_card_for_model store model_id (some pt) =
      generate_model_card_for_model
        { store with artifact_types := [], execution_types := [] } model_id (some pt) := by
  refine ⟨?_, ?_, ?_, rfl, rfl, rfl⟩ <;>
  · simp only [get_metrics_artifacts_for_model, get_stats_artifacts_for_model,
      generate_model_card_for_model, resolve_pipeline_types]
    cases h : _validate_model_id store pt.model_type model_id with
    | error e =>
      rcases validate_error_shape _ _ _ _ h with rfl | ⟨a, rfl⟩ <;> rfl
    | ok m =>
      first
      | rfl
      | (cases _get_one_hop_executions store [model_id] _Direction.ANCESTOR
          (some pt.trainer_type) with
         | nil => rfl
         | cons t0 ts => rfl)

/-- C2: for a valid model id, the statistics query partitions the
one-hop ANCESTOR dataset artifacts by the transform marker in their uri,
replaces each transformed one by the Dataset-filtered ANCESTOR hop from
the transformed ids, unions the two id sets, and returns the
Statistics-filtered SUCCESSOR hop from the union. -/
theorem c2_stats_artifacts_for_model (store : MetadataStore) (model_id : Int)
    (pt : PipelineTypes) (m : Artifact)
    (h : _validate_model_id store pt.model_type model_id = .ok m) :
    ∃ transformed_ids dataset_ids : List Int,
      get_stats_artifacts_for_model store model_id (some pt) =
        .ok (_get_one_hop_artifacts store dataset_ids _Direction.SUCCESSOR
          (some pt.stats_type)) ∧
      (∀ x, x ∈ transformed_ids ↔
        ∃ a, a ∈ _get_one_hop_artifacts store [model_id] _Direction.ANCESTOR
            (some pt.dataset_type) ∧
          uriContainsTransform a.uri = true ∧ a.id = x) ∧
      (∀ x, x ∈ dataset_ids ↔
        (∃ a, a ∈ _get_one_hop_artifacts store [model_id] _Direction.ANCESTOR
            (some pt.dataset_type) ∧
          uriContainsTransform a.uri = false ∧ a.id = x) ∨
        (∃ d, d ∈ _get_one_hop_artifacts store transformed_ids _Direction.ANCESTOR
            (some pt.dataset_type) ∧ d.id = x)) := by
  refine ⟨pySet (((_get_one_hop_artifacts store [model_id] _Direction.ANCESTOR
      (some pt.dataset_type)).filter (fun e => uriContainsTransform e.uri)).map Artifact.id),
    pySet (pySet (((_get_one_hop_artifacts store [model_id] _Direction.ANCESTOR
      (some pt.dataset_type)).filter
        (fun e => ¬ uriContainsTransform e.uri)).map Artifact.id) ++
      (_get_one_hop_artifacts store
        (pySet (((_get_one_hop_artifacts store [model_id] _Direction.ANCESTOR
          (some pt.dataset_type)).filter
            (fun e => uriContainsTransform e.uri)).map Artifact.id))
        _Direction.ANCESTOR (some pt.dataset_type)).map Artifact.id),
    ?_, ?_, ?_⟩
  · simp only [get_stats_artifacts_for_model, resolve_pipeline_types, h]
  · intro x
    simp only [mem_pySet, List.mem_map, List.mem_filter]
    constructor
    · rintro ⟨a, ⟨ha, hu⟩, hid⟩
      exact ⟨a, ha, hu, hid⟩
    · rintro ⟨a, ha, hu, hid⟩
      exact ⟨a, ⟨ha, hu⟩, hid⟩
  · intro x
    simp only [mem_pySet, List.mem_append, List.mem_map, List.mem_filter,
      decide_eq_true_eq, Bool.not_eq_true]
    constructor
    · rintro (⟨a, ⟨ha, hu⟩, hid⟩ | ⟨d, hd, hid⟩)
      · exact Or.inl ⟨a, ha, hu, hid⟩
      · exact Or.inr ⟨d, hd, hid⟩
    · rintro (⟨a, ha, hu, hid⟩ | ⟨d, hd, hid⟩)
      · exact Or.inl ⟨a, ⟨ha, hu⟩, hid⟩
      · exact Or.inr ⟨d, hd, hid⟩

/-- C2 witness: on the concrete store the model trained on transformed
examples yields exactly the statistics artifact of the raw dataset. -/
theorem c2_stats_artifacts_for_model_witness :
    get_stats_artifacts_for_model storeW 103 (some ptW) = .ok [statsArtifact] ∧
    (∃ transformed_ids dataset_ids : List Int,
      get_stats_artifacts_for_model storeW 103 (some ptW) =
        .ok (_get_one_hop_artifacts storeW dataset_ids _Direction.SUCCESSOR
          (some ptW.stats_type)) ∧
      (∀ x, x ∈ transformed_ids ↔
        ∃ a, a ∈ _get_one_hop_artifacts storeW [103] _Direction.ANCESTOR
            (some ptW.dataset_type) ∧
          uriContainsTransform a.uri = true ∧ a.id = x) ∧
      (∀ x, x ∈ dataset_ids ↔
        (∃ a, a ∈ _get_one_hop_artifacts storeW [103] _Direction.ANCESTOR
            (some ptW.dataset_type) ∧
          uriContainsTransform a.uri = false ∧ a.id = x) ∨
        (∃ d, d ∈ _get_one_hop_artifacts storeW transformed_ids _Direction.ANCESTOR
            (some ptW.dataset_type) ∧ d.id = x))) :=
  ⟨by decide, c2_stats_artifacts_for_model storeW 103 ptW modelArtifact (by decide)⟩

/-- C4: for a valid model id, an empty trainer-execution list leaves the
model details at their defaults without error, and a non-empty list sets
the name from the module_file property of the last trainer and the
version label and single reference from the checksum_md5 and
pipeline_name properties of the first trainer. -/
theorem c4_model_card_trainer_properties (store : MetadataStore) (model_id : Int)
    (pt : PipelineTypes) (m : Artifact)
    (h : _validate_model_id store pt.model_type model_id = .ok m) :
    (_get_one_hop_executions store [model_id] _Direction.ANCESTOR
        (some pt.trainer_type) = [] →
      generate_model_card_for_model store model_id (some pt) =
        .ok { model_details :=
                { name := none, version := { name := none }, references := [] }
              quantitative_analysis := { performance_metrics := [] } }) ∧
    (∀ t0 ts,
      _get_one_hop_executions store [model_id] _Direction.ANCESTOR
          (some pt.trainer_type) = t0 :: ts →
      ∃ tlast, (t0 :: ts).getLast? = some tlast ∧
        generate_model_card_for_model store model_id (some pt) =
          .ok { model_details :=
                  { name := _property_value tlast.node_properties "module_file" false
                    version :=
                      { name := _property_value t0.node_properties "checksum_md5" false }
                    references :=
                      [{ reference :=
                          _property_value t0.node_properties "pipeline_name" false }] }
                quantitative_analysis := { performance_metrics := [] } }) := by
  constructor
  · intro htr
    simp only [generate_model_card_for_model, resolve_pipeline_types, h, htr]
    rfl
  · intro t0 ts htr
    refine ⟨(t0 :: ts).getLast (by simp), List.getLast?_eq_getLast _ _, ?_⟩
    simp only [generate_model_card_for_model, resolve_pipeline_types, h, htr]
    rfl

/-- C4 witness: on the concrete store the single-trainer model gets its
name, version label and reference from the trainer properties, and the
model with no trainer executions gets the default card. -/
theorem c4_model_card_trainer_properties_witness :
    generate_model_card_for_model storeW 103 (some ptW) =
      .ok { model_details :=
              { name := some (.str "trainer_module.py")
                version := { name := some (.str "abc123") }
                references := [{ reference := some (.str "my_pipeline") }] }
            quantitative_analysis := { performance_metrics := [] } } ∧
    generate_model_card_for_model storeW 106 (some ptW) = .ok ModelCard.init := by
  constructor
  · obtain ⟨tlast, hlast, hcard⟩ :=
      (c4_model_card_trainer_properties storeW 103 ptW modelArtifact rfl).2
        trainerExec [] rfl
    rw [hcard]
    have : tlast = trainerExec := by
      simpa using hlast.symm
    rw [this]
    rfl
  · exact (c4_model_card_trainer_properties storeW 106 ptW orphanModel rfl).1 rfl

theorem card_append_nil (card : ModelCard) : card_append card [] = card := by
  cases card with
  | mk md qa =>
    cases qa with
    | mk pm => simp [card_append]

theorem card_append_assoc (card : ModelCard) (a b : List PerformanceMetric) :
    card_append (card_append card a) b = card_append card (a ++ b) := by
  simp [card_append, List.append_assoc]

theorem append_metric_eq (card : ModelCard) (m : PerformanceMetric) :
    card.append_metric m = card_append card [m] := rfl

theorem parse_wellShaped (mv : MetricValue) (h : wellShapedValue mv = true) :
    parse_metric_value mv = .ok (specScalar mv) := by
  cases hd : mv.doubleValue with
  | some v => simp [parse_metric_value, specScalar, hd]
  | none =>
    cases hb : mv.boundedValue with
    | none => simp [wellShapedValue, hd, hb] at h
    | some bv =>
      cases hv : bv.lookup "value" with
      | none => simp [wellShapedValue, hd, hb, hv] at h
      | some v => simp [parse_metric_value, specScalar, hd, hb, hv]

theorem render_dims_pairs (dims : List SliceElem)
    (h : ∀ d ∈ dims, d.isPair = true) :
    render_dims dims = .ok (dims.map dimLabel) := by
  induction dims with
  | nil => rfl
  | cons d ds ih =>
    cases d with
    | pair a b =>
      simp only [render_dims, dim_render, List.map_cons, dimLabel,
        ih (fun x hx => h x (List.mem_cons_of_mem _ hx))]
    | nonPair n =>
      have hp := h _ (List.mem_cons_self _ _)
      simp [SliceElem.isPair] at hp

theorem slice_name_render_pairs (dims : List SliceElem)
    (h : ∀ d ∈ dims, d.isPair = true) :
    slice_name_render (.tuple dims) = .ok (sliceLabel (.tuple dims)) := by
  simp only [slice_name_render, render_dims_pairs dims h, sliceLabel]

theorem annotate_metrics_ok (sn : String) (ms : List (String × MetricValue))
    (h : ∀ mp ∈ ms, wellShapedValue mp.2 = true) :
    ∀ card, annotate_metrics_for_slice card sn ms =
      (card_append card (ms.map (fun mp =>
        { type := mp.1, value := toString (specScalar mp.2), slice := sn })), none) := by
  induction ms with
  | nil => intro card; simp [annotate_metrics_for_slice, card_append_nil]
  | cons mp rest ih =>
    intro card
    obtain ⟨name, mv⟩ := mp
    have hw : wellShapedValue mv = true := h _ (List.mem_cons_self _ _)
    simp only [annotate_metrics_for_slice, parse_wellShaped mv hw, List.map_cons]
    rw [ih (fun x hx => h x (List.mem_cons_of_mem _ hx)), append_metric_eq,
      card_append_assoc]
    rfl

theorem annotate_cons_ok (card : ModelCard)
    (s : SliceRepr × List (String × MetricValue)) (rest : SlicingMetrics)
    (h : sliceOk s = true) :
    annotate_eval_result_metrics card (s :: rest) =
      annotate_eval_result_metrics (card_append card (sliceRecords s)) rest := by
  obtain ⟨sr, ms⟩ := s
  cases sr with
  | other t => simp [sliceOk, sliceKeyOk] at h
  | tuple dims =>
    simp only [sliceOk, sliceKeyOk, Bool.and_eq_true, List.all_eq_true] at h
    obtain ⟨hdims, hms⟩ := h
    simp only [annotate_eval_result_metrics, slice_name_render_pairs dims hdims,
      annotate_metrics_ok _ _ hms card]
    rfl

theorem annotate_all_ok (er : SlicingMetrics) (h : ∀ s ∈ er, sliceOk s = true) :
    ∀ card, annotate_eval_result_metrics card er =
      (card_append card (er.flatMap sliceRecords), none) := by
  induction er with
  | nil => intro card; simp [annotate_eval_result_metrics, card_append_nil]
  | cons s rest ih =>
    intro card
    rw [annotate_cons_ok card s rest (h s (List.mem_cons_self _ _)),
      ih (fun x hx => h x (List.mem_cons_of_mem _ hx)), card_append_assoc,
      List.flatMap_cons]

/-- C6: on an evaluation result whose slice keys are tuples of pairs and
whose metric values are well shaped, the annotator succeeds and appends
one record per (slice, metric) pair in encounter order, each value
rendered as text and each slice label the dimensions rendered name_value
and joined with the separator (the empty tuple giving the empty string);
the record count is the sum of the per-slice metric counts. -/
theorem c6_annotator_appends_all_metrics (card : ModelCard) (er : SlicingMetrics)
    (hslices : ∀ s ∈ er, sliceKeyOk s.1 = true)
    (hmetrics : ∀ s ∈ er, ∀ mp ∈ s.2, wellShapedValue mp.2 = true) :
    annotate_eval_result_metrics card er =
      (card_append card
        (er.flatMap (fun s => s.2.map (fun mp =>
          { type := mp.1, value := toString (specScalar mp.2),
            slice := sliceLabel s.1 }))), none) ∧
    (annotate_eval_result_metrics card er).1.quantitative_analysis.performance_metrics.length =
      card.quantitative_analysis.performance_metrics.length +
        (er.map (fun s => s.2.length)).sum := by
  have hok : ∀ s ∈ er, sliceOk s = true := by
    intro s hs
    simp only [sliceOk, Bool.and_eq_true, List.all_eq_true]
    exact ⟨hslices s hs, hmetrics s hs⟩
  have hmain := annotate_all_ok er hok card
  constructor
  · exact hmain
  · rw [hmain]
    simp only [card_append, List.length_append, List.length_flatMap,
      Function.comp_def, sliceRecords, List.length_map]

/-- C6 witness: three concrete slices with one or two metrics each give
exactly the four records with the expected labels and text values. -/
theorem c6_annotator_appends_all_metrics_witness :
    annotate_eval_result_metrics ModelCard.init evalW =
      ({ model_details := { name := none, version := { name := none }, references := [] }
         quantitative_analysis := { performance_metrics :=
           [{ type := "average_loss", value := "1", slice := "weekday_0" },
            { type := "prediction/mean", value := "2", slice := "weekday_0" },
            { type := "average_loss", value := "3", slice := "gender_male_X_age_10" },
            { type := "average_loss", value := "4", slice := "" }] } }, none) := by
  have h := (c6_annotator_appends_all_metrics ModelCard.init evalW
    (by decide) (by decide)).1
  rw [h]
  decide

theorem annotate_metrics_append_pre (sn : String)
    (ms1 : List (String × MetricValue)) (tail : List (String × MetricValue))
    (h : ∀ mp ∈ ms1, wellShapedValue mp.2 = true) :
    ∀ card, annotate_metrics_for_slice card sn (ms1 ++ tail) =
      annotate_metrics_for_slice
        (card_append card (ms1.map (fun mp =>
          { type := mp.1, value := toString (specScalar mp.2), slice := sn })))
        sn tail := by
  induction ms1 with
  | nil => intro card; simp [card_append_nil]
  | cons mp rest ih =>
    intro card
    obtain ⟨name, mv⟩ := mp
    have hw : wellShapedValue mv = true := h _ (List.mem_cons_self _ _)
    rw [List.cons_append]
    simp only [annotate_metrics_for_slice, parse_wellShaped mv hw, List.map_cons]
    rw [ih (fun x hx => h x (List.mem_cons_of_mem _ hx)), append_metric_eq,
      card_append_assoc]
    rfl

theorem annotate_append_pre (pre : SlicingMetrics) (l : SlicingMetrics)
    (hpre : ∀ s ∈ pre, sliceOk s = true) :
    ∀ card, annotate_eval_result_metrics card (pre ++ l) =
      annotate_eval_result_metrics (card_append card (pre.flatMap sliceRecords)) l := by
  induction pre with
  | nil => intro card; simp [card_append_nil]
  | cons s ps ih =>
    intro card
    rw [List.cons_append, annotate_cons_ok _ _ _ (hpre s (List.mem_cons_self _ _)),
      ih (fun x hx => hpre x (List.mem_cons_of_mem _ hx)), card_append_assoc,
      List.flatMap_cons]

theorem render_dims_first_nonpair (dims1 : List SliceElem) (n : Nat)
    (dims2 : List SliceElem) (h : ∀ d ∈ dims1, d.isPair = true) :
    render_dims (dims1 ++ SliceElem.nonPair n :: dims2) =
      .error (.tupleUnpack n) := by
  induction dims1 with
  | nil => rfl
  | cons d ds ih =>
    cases d with
    | pair a b =>
      rw [List.cons_append]
      simp only [render_dims, dim_render,
        ih (fun x hx => h x (List.mem_cons_of_mem _ hx))]
    | nonPair m =>
      have hp := h _ (List.mem_cons_self _ _)
      simp [SliceElem.isPair] at hp

theorem slice_name_render_first_nonpair (dims1 : List SliceElem) (n : Nat)
    (dims2 : List SliceElem) (h : ∀ d ∈ dims1, d.isPair = true) :
    slice_name_render (.tuple (dims1 ++ SliceElem.nonPair n :: dims2)) =
      .error (.tupleUnpack n) := by
  simp only [slice_name_render, render_dims_first_nonpair dims1 n dims2 h]

/-- C7 as stated fails on three concrete inputs: a metric value carrying
both the direct-scalar and the bounded-value shapes (so not exactly one
of the two) is accepted without any error; a slice key that is a tuple
of a non-pair (so not a tuple of pairs) raises the tuple-unpacking
error, not the invalid-slice raise; and a bounded value without the
value sub-field raises the key-lookup error, not the unexpected-shape
raise. -/
theorem c7_counterexample :
    (MetricValue.mk (some 1) (some [("value", 2)])).doubleValue.isSome = true ∧
    (MetricValue.mk (some 1) (some [("value", 2)])).boundedValue.isSome = true ∧
    (annotate_eval_result_metrics ModelCard.init
      [(SliceRepr.tuple [],
        [("m", MetricValue.mk (some 1) (some [("value", 2)]))])]).2 = none ∧
    (annotate_eval_result_metrics ModelCard.init
      [(SliceRepr.tuple [SliceElem.nonPair 3],
        [("m", MetricValue.mk (some 1) none)])]).2 = some (.tupleUnpack 3) ∧
    isSliceNotTupleError (annotate_eval_result_metrics ModelCard.init
      [(SliceRepr.tuple [SliceElem.nonPair 3],
        [("m", MetricValue.mk (some 1) none)])]).2 = false ∧
    (annotate_eval_result_metrics ModelCard.init
      [(SliceRepr.tuple [],
        [("m", MetricValue.mk none (some [("lower_bound", 1)]))])]).2 =
      some (.keyError "value") ∧
    isUnexpectedShapeError (annotate_eval_result_metrics ModelCard.init
      [(SliceRepr.tuple [],
        [("m", MetricValue.mk none (some [("lower_bound", 1)]))])]).2 = false := by
  refine ⟨rfl, rfl, rfl, rfl, rfl, rfl, rfl⟩

/-- C7 (amended): after any run of well-formed slices, a slice key that
is not a tuple raises the invalid-slice error, while a tuple containing
a non-pair element raises the tuple-unpacking error instead; a metric
value carrying neither the direct-scalar key nor the bounded-value key
raises the unexpected-shape error, while a bounded value without the
value sub-field raises the key-lookup error instead; and a value
carrying the direct-scalar key is accepted with that scalar regardless
of the bounded-value key. -/
theorem c7_annotator_error_conditions (card : ModelCard) (pre : SlicingMetrics)
    (sr : SliceRepr) (ms : List (String × MetricValue)) (rest : SlicingMetrics)
    (hpre : ∀ s ∈ pre, sliceOk s = true) :
    (∀ t, sr = SliceRepr.other t →
      (annotate_eval_result_metrics card (pre ++ (sr, ms) :: rest)).2 =
        some (.sliceNotTuple t)) ∧
    (∀ dims, sr = SliceRepr.tuple dims → (∀ d ∈ dims, d.isPair = true) →
      ∀ ms1 nm mv ms2, ms = ms1 ++ (nm, mv) :: ms2 →
        (∀ mp ∈ ms1, wellShapedValue mp.2 = true) →
        mv.doubleValue = none → mv.boundedValue = none →
        (annotate_eval_result_metrics card (pre ++ (sr, ms) :: rest)).2 =
          some .unexpectedMetricShape) ∧
    (∀ mv : MetricValue, ∀ v, mv.doubleValue = some v →
      parse_metric_value mv = .ok v) ∧
    (∀ dims1 n dims2, sr = SliceRepr.tuple (dims1 ++ SliceElem.nonPair n :: dims2) →
      (∀ d ∈ dims1, d.isPair = true) →
      (annotate_eval_result_metrics card (pre ++ (sr, ms) :: rest)).2 =
        some (.tupleUnpack n)) ∧
    (∀ dims, sr = SliceRepr.tuple dims → (∀ d ∈ dims, d.isPair = true) →
      ∀ ms1 nm mv ms2 bv, ms = ms1 ++ (nm, mv) :: ms2 →
        (∀ mp ∈ ms1, wellShapedValue mp.2 = true) →
        mv.doubleValue = none → mv.boundedValue = some bv →
        bv.lookup "value" = none →
        (annotate_eval_result_metrics card (pre ++ (sr, ms) :: rest)).2 =
          some (.keyError "value")) := by
  refine ⟨?_, ?_, ?_, ?_, ?_⟩
  · rintro t rfl
    rw [annotate_append_pre pre _ hpre card]
    rfl
  · rintro dims rfl hdims ms1 nm mv ms2 rfl hms1 hd hb
    rw [annotate_append_pre pre _ hpre card]
    simp only [annotate_eval_result_metrics, slice_name_render_pairs dims hdims]
    rw [annotate_metrics_append_pre _ ms1 _ hms1]
    simp [annotate_metrics_for_slice, parse_metric_value, hd, hb]
  · intro mv v hv
    simp [parse_metric_value, hv]
  · rintro dims1 n dims2 rfl hdims1
    rw [annotate_append_pre pre _ hpre card]
    simp only [annotate_eval_result_metrics,
      slice_name_render_first_nonpair dims1 n dims2 hdims1]
  · rintro dims rfl hdims ms1 nm mv ms2 bv rfl hms1 hd hb hv
    rw [annotate_append_pre pre _ hpre card]
    simp only [annotate_eval_result_metrics, slice_name_render_pairs dims hdims]
    rw [annotate_metrics_append_pre _ ms1 _ hms1]
    simp [annotate_metrics_for_slice, parse_metric_value, hd, hb, hv]

/-- C7 witness: after one well-formed slice, a string slice key raises
the invalid-slice error, a shapeless metric value raises the
unexpected-shape error, a tuple of a non-pair raises the unpacking
error and a bounded value without the value sub-field raises the
key-lookup error. -/
theorem c7_annotator_error_conditions_witness :
    (annotate_eval_result_metrics ModelCard.init
      [(SliceRepr.tuple [], [("m", MetricValue.mk (some 1) none)]),
       (SliceRepr.other "str", [])]).2 = some (.sliceNotTuple "str") ∧
    (annotate_eval_result_metrics ModelCard.init
      [(SliceRepr.tuple [], [("m", MetricValue.mk (some 1) none)]),
       (SliceRepr.tuple [], [("bad", MetricValue.mk none none)])]).2 =
      some .unexpectedMetricShape ∧
    (annotate_eval_result_metrics ModelCard.init
      [(SliceRepr.tuple [], [("m", MetricValue.mk (some 1) none)]),
       (SliceRepr.tuple [SliceElem.nonPair 3], [])]).2 = some (.tupleUnpack 3) ∧
    (annotate_eval_result_metrics ModelCard.init
      [(SliceRepr.tuple [], [("m", MetricValue.mk (some 1) none)]),
       (SliceRepr.tuple [],
        [("b", MetricValue.mk none (some [("lower_bound", 1)]))])]).2 =
      some (.keyError "value") :=
  ⟨(c7_annotator_error_conditions ModelCard.init
      [(SliceRepr.tuple [], [("m", MetricValue.mk (some 1) none)])]
      (SliceRepr.other "str") [] [] (by decide)).1 "str" rfl,
   (c7_annotator_error_conditions ModelCard.init
      [(SliceRepr.tuple [], [("m", MetricValue.mk (some 1) none)])]
      (SliceRepr.tuple []) [("bad", MetricValue.mk none none)] [] (by decide)).2.1
      [] rfl (by decide) [] "bad" (MetricValue.mk none none) [] rfl (by decide)
      rfl rfl,
   (c7_annotator_error_conditions ModelCard.init
      [(SliceRepr.tuple [], [("m", MetricValue.mk (some 1) none)])]
      (SliceRepr.tuple [SliceElem.nonPair 3]) [] [] (by decide)).2.2.2.1
      [] 3 [] rfl (by decide),
   (c7_annotator_error_conditions ModelCard.init
      [(SliceRepr.tuple [], [("m", MetricValue.mk (some 1) none)])]
      (SliceRepr.tuple [])
      [("b", MetricValue.mk none (some [("lower_bound", 1)]))] [] (by decide)).2.2.2.2
      [] rfl (by decide) [] "b" (MetricValue.mk none (some [("lower_bound", 1)]))
      [] [("lower_bound", 1)] rfl (by decide) rfl rfl rfl⟩

theorem annotate_metrics_appends (sn : String) :
    ∀ (ms : List (String × MetricValue)) (card : ModelCard),
      ∃ l, (annotate_metrics_for_slice card sn ms).1 = card_append card l := by
  intro ms
  induction ms with
  | nil => intro card; exact ⟨[], (card_append_nil card).symm⟩
  | cons mp rest ih =>
    intro card
    obtain ⟨name, mv⟩ := mp
    simp only [annotate_metrics_for_slice]
    cases hp : parse_metric_value mv with
    | error e => exact ⟨[], (card_append_nil card).symm⟩
    | ok v =>
      obtain ⟨l, hl⟩ := ih
        (card.append_metric { type := name, value := toString v, slice := sn })
      refine ⟨{ type := name, value := toString v, slice := sn } :: l, ?_⟩
      rw [hl, append_metric_eq, card_append_assoc]
      rfl

theorem annotate_result_appends (er : SlicingMetrics) :
    ∀ card, ∃ l, (annotate_eval_result_metrics card er).1 = card_append card l := by
  induction er with
  | nil => intro card; exact ⟨[], (card_append_nil card).symm⟩
  | cons s rest ih =>
    intro card
    obtain ⟨sr, ms⟩ := s
    simp only [annotate_eval_result_metrics]
    cases hs : slice_name_render sr with
    | error e => exact ⟨[], (card_append_nil card).symm⟩
    | ok sn =>
      dsimp only
      obtain ⟨l1, hl1⟩ := annotate_metrics_appends sn ms card
      cases hms : annotate_metrics_for_slice card sn ms with
      | mk card2 oe =>
        rw [hms] at hl1
        dsimp only at hl1
        cases oe with
        | some e => exact ⟨l1, hl1⟩
        | none =>
          obtain ⟨l2, hl2⟩ := ih card2
          refine ⟨l1 ++ l2, ?_⟩
          dsimp only
          rw [hl2, hl1, card_append_assoc]

/-- C10: annotation only appends to the performance-metric list: the
records already present stay in place as a prefix and the model details
are untouched, also when an error stops the traversal midway. -/
theorem c10_annotator_frame (card : ModelCard) (er : SlicingMetrics) :
    (annotate_eval_result_metrics card er).1.model_details = card.model_details ∧
    ∃ l, (annotate_eval_result_metrics card er).1.quantitative_analysis.performance_metrics =
      card.quantitative_analysis.performance_metrics ++ l := by
  obtain ⟨l, hl⟩ := annotate_result_appends er card
  rw [hl]
  exact ⟨rfl, l, rfl⟩

/-- C8: evaluating the property reader at a double-valued property: the
populated oneof field is double_value, so the float_value comparison in
the source never matches, and the reader falls through to the string
accessor returning the empty-string default instead of the double. -/
theorem c8_double_property_evaluation :
    (Value.double_value (5 / 2)).whichOneof = "double_value" ∧
    _property_value ⟨[("p", Value.double_value (5 / 2))], []⟩ "p" false =
      some (.str "") ∧
    _property_value ⟨[("p", Value.double_value (5 / 2))], []⟩ "p" false ≠
      some (.float (5 / 2)) := by
  refine ⟨rfl, rfl, by decide⟩

end TfxUtil
